import Mathlib

/-!
# Verification of the `routefinder` repository

A shallow embedding, in Lean 4, of the core of the `routefinder` Python
program (files `routefinder/libraries.py`, `routefinder/compile_data.py`,
`routefinder/calculate_route.py`), together with theorems settling the
frozen specification claims.

Modelling conventions:
* Python `float` values are modelled as `ℚ`; the IEEE value `float("inf")`,
  used by the cost function, is modelled by `none` in an `Option ℚ` cost
  (so `some q` is a finite cost `q`).
* Python `dict`s (which preserve insertion order and overwrite in place)
  are modelled as association lists `List (String × α)` with an
  order-preserving insert (`dinsert`) and a lookup (`dget?`).
* Python exceptions are modelled by `Except Err`.  The repository's own
  exception classes map to constructors of `Err`; the Python builtin
  `KeyError` (raised both by a failing `dict[...]` access and explicitly by
  `raise KeyError("Unexpected node:", ...)` in `calculate`) is modelled by
  `Err.keyError`, which is what the specification calls the
  "InternalConsistency" error.  `MiscellaneousError` is what the
  specification calls "InvalidConfiguration".
-/

set_option linter.unusedVariables false

-- The Batteries rational-number operations are `@[irreducible]`, which
-- blocks `decide`/`rfl` evaluation of the executable model on concrete
-- inputs; re-open them for this file.
unseal Rat.add Rat.mul Rat.sub Rat.inv Rat.ofScientific

namespace Routefinder

/-! ## Ordered dictionaries (Python `dict`) -/

/-- Lookup in an association list, first match: Python `d[k]` / `k in d`. -/
def dget? {α : Type} (k : String) : List (String × α) → Option α
  | [] => none
  | (k', v) :: rest => if k' = k then some v else dget? k rest

/-- Order-preserving insert: Python `d[k] = v`.  If `k` is present its value
is overwritten in place (Python dicts keep the original key position),
otherwise the pair is appended at the end. -/
def dinsert {α : Type} (k : String) (v : α) : List (String × α) → List (String × α)
  | [] => [(k, v)]
  | (k', v') :: rest => if k' = k then (k, v) :: rest else (k', v') :: dinsert k v rest

/-- The key sequence of a dict in iteration order: Python `list(d.keys())`. -/
def dkeys {α : Type} (d : List (String × α)) : List String := d.map Prod.fst

@[simp] theorem dget?_nil {α : Type} (k : String) : dget? (α := α) k [] = none := rfl

theorem dget?_dinsert {α : Type} (k : String) (v : α) (d : List (String × α)) :
    dget? k (dinsert k v d) = some v := by
  induction d with
  | nil => simp [dinsert, dget?]
  | cons p rest ih =>
    obtain ⟨k', v'⟩ := p
    by_cases h : k' = k
    · simp [dinsert, h, dget?]
    · simp [dinsert, h, dget?, ih]

theorem dget?_dinsert_ne {α : Type} (k k' : String) (v : α) (d : List (String × α))
    (h : k ≠ k') : dget? k' (dinsert k v d) = dget? k' d := by
  induction d with
  | nil => simp [dinsert, dget?, h]
  | cons p rest ih =>
    obtain ⟨k₀, v₀⟩ := p
    by_cases h₀ : k₀ = k
    · subst h₀
      simp [dinsert, dget?, h]
    · by_cases h₁ : k₀ = k'
      · simp [dinsert, h₀, dget?, h₁, Ne.symm h]
      · simp [dinsert, h₀, dget?, h₁, ih]

/-! ## Basic data model (`libraries.py`) -/

/-- `Position = Tuple[Latitude, Longitude]`. -/
abbrev Position : Type := ℚ × ℚ

/-- `Edge = Tuple[Distance, Way]`. -/
abbrev Edge : Type := ℚ × String

/-- `GraphData = Dict[HashedPosition, Dict[HashedPosition, Edge]]`. -/
abbrev GraphData : Type := List (String × List (String × Edge))

/-- The repository's error classes (`libraries.py`), plus the Python builtin
exceptions that escape from the core functions.  `keyError` models the Python
builtin `KeyError` — the specification's "InternalConsistency" error;
`miscellaneous` models `MiscellaneousError` — the specification's
"InvalidConfiguration"; `dataNotReady` is the specification's "NotReady". -/
inductive Err : Type
  | nodeNotFound
  | noResult
  | dataNotReady
  | readOrder
  | alreadyRead
  | dataCorruption
  | miscellaneous
  | keyError
  | invalidGeohash
  deriving DecidableEq, Repr

instance exceptDecEq {ε α : Type} [DecidableEq ε] [DecidableEq α] :
    DecidableEq (Except ε α) := fun a b =>
  match a, b with
  | .error e1, .error e2 =>
    if h : e1 = e2 then isTrue (by rw [h]) else isFalse (by intro hc; cases hc; exact h rfl)
  | .ok v1, .ok v2 =>
    if h : v1 = v2 then isTrue (by rw [h]) else isFalse (by intro hc; cases hc; exact h rfl)
  | .error _, .ok _ => isFalse (by intro hc; cases hc)
  | .ok _, .error _ => isFalse (by intro hc; cases hc)

/-- `HashedNodeInfo`: name and optional navaid frequency of a waypoint. -/
structure HashedNodeInfo : Type where
  name : String
  frequency : Option ℚ
  deriving DecidableEq, Repr

/-- `NodeInfo`: a waypoint record carrying its position as well. -/
structure NodeInfo : Type where
  name : String
  frequency : Option ℚ
  position : Position
  deriving DecidableEq, Repr

/-- `AirportProcedure`: a SID/STAR procedure (name, runway, node list). -/
structure AirportProcedure : Type where
  name : String
  runway : String
  nodes : List NodeInfo
  deriving DecidableEq, Repr

/-- `AirportInfo`: position plus the SID and STAR catalogs, each a dict from
exit/entry waypoint name to the list of procedures grouped under it. -/
structure AirportInfo : Type where
  position : Position
  sid : List (String × List AirportProcedure)
  star : List (String × List AirportProcedure)
  deriving DecidableEq, Repr

/-- `InfoData`: the typed shape `{"airports": ..., "nodes": ...}`. -/
structure InfoData : Type where
  airports : List (String × AirportInfo)
  nodes : List (String × HashedNodeInfo)
  deriving DecidableEq, Repr

/-- `RouteResult` (`libraries.py`): display route, total distance, node
records, and the origin-SID / destination-STAR catalogs.  The distance is
`Option ℚ` because it is copied from the search's total cost, whose value
`none` models the float `inf`. -/
structure RouteResult : Type where
  display_route : List String
  distance : Option ℚ
  nodes_info : List NodeInfo
  sid : List (String × List AirportProcedure)
  star : List (String × List AirportProcedure)
  deriving DecidableEq, Repr

/-! ## The geohash codec (`libraries.py`, class `Geohash`)

Modelled from the spec: the repository's `Geohash.hash`/`Geohash.unhash`
delegate to the external `geolib` library, whose code is not part of this
repository.  Per spec §4.1/§6 the codec is the standard geohash: a
9-character base-32 string obtained by recursive bisection of the
longitude/latitude ranges (longitude bit first), and decoding returns the
centre of the encoded cell; `Geohash.unhash` (source, `libraries.py` lines
54–70) then rounds both coordinates to 6 decimal places.  Malformed codes
(characters outside the base-32 alphabet) fail with an input-validation
error, modelled by `none`. -/

/-- The standard geohash base-32 alphabet. -/
def geohashAlphabet : List Char :=
  ['0', '1', '2', '3', '4', '5', '6', '7', '8', '9', 'b', 'c', 'd', 'e', 'f',
   'g', 'h', 'j', 'k', 'm', 'n', 'p', 'q', 'r', 's', 't', 'u', 'v', 'w', 'x',
   'y', 'z']

/-- Most-significant-bit-first value of a bit string. -/
def bitsToNat (l : List Bool) : Nat :=
  l.foldl (fun n b => 2 * n + cond b 1 0) 0

/-- Most-significant-bit-first bit string of width `w` for a value `v`. -/
def natToBits (w v : Nat) : List Bool :=
  (List.range w).map (fun i => v.testBit (w - 1 - i))

/-- The base-32 character of a 5-bit chunk. -/
def charOfBits (b : List Bool) : Char :=
  geohashAlphabet.getD (bitsToNat b) '0'

/-- Index of a character in the alphabet, `none` if absent. -/
def charIndex? (c : Char) : List Char → Option Nat
  | [] => none
  | c' :: rest => if c' = c then some 0 else (charIndex? c rest).map (· + 1)

/-- The 5-bit chunk of a base-32 character, `none` on a malformed
character. -/
def bitsOfChar (c : Char) : Option (List Bool) :=
  (charIndex? c geohashAlphabet).map (natToBits 5)

/-- Splits a bit string into consecutive 5-bit chunks (the bit count of a
geohash is always a multiple of 5). -/
def chunk5 : List Bool → List (List Bool)
  | b0 :: b1 :: b2 :: b3 :: b4 :: rest => [b0, b1, b2, b3, b4] :: chunk5 rest
  | _ => []

/-- Decodes a character string back into its bit string, `none` if any
character is malformed. -/
def decodeBits : List Char → Option (List Bool)
  | [] => some []
  | c :: cs =>
    match bitsOfChar c, decodeBits cs with
    | some b, some bs => some (b ++ bs)
    | _, _ => none

/-- Interleaves two bit streams, first stream first (geohash: longitude bit
first). -/
def interleave : List Bool → List Bool → List Bool
  | [], b => b
  | a :: as, [] => a :: as
  | a :: as, b :: bs => a :: b :: interleave as bs

/-- Splits an interleaved bit stream back into its two component streams. -/
def deinterleave : List Bool → List Bool × List Bool
  | [] => ([], [])
  | a :: rest =>
    let p := deinterleave rest
    (a :: p.2, p.1)

/-- The bisection bits of a value `x` inside `[lo, hi]`: each step emits
`true` and keeps the upper half when `x` is at or above the midpoint, else
emits `false` and keeps the lower half. -/
def bisectBits (x lo hi : ℚ) : Nat → List Bool
  | 0 => []
  | n + 1 =>
    let mid := (lo + hi) / 2
    if mid ≤ x then true :: bisectBits x mid hi n
    else false :: bisectBits x lo mid n

/-- Replays a bit string as interval bisections, returning the final
interval. -/
def intervalFold : List Bool → ℚ → ℚ → ℚ × ℚ
  | [], lo, hi => (lo, hi)
  | b :: bs, lo, hi =>
    let mid := (lo + hi) / 2
    if b then intervalFold bs mid hi else intervalFold bs lo mid

/-- Centre of the interval selected by a bit string. -/
def decodeMid (bits : List Bool) (lo hi : ℚ) : ℚ :=
  let p := intervalFold bits lo hi
  (p.1 + p.2) / 2

/-- Python `round(x, 6)`: rounding to 6 decimal places. -/
def round6 (q : ℚ) : ℚ :=
  ((round ((10 ^ 6 : ℚ) * q) : ℤ) : ℚ) / 10 ^ 6

namespace Geohash

/-- `Geohash.hash(position)`: the 9-character geohash of a position
(23 longitude bits and 22 latitude bits, interleaved longitude-first and
written in base 32). -/
def hash (p : Position) : String :=
  let lonBits := bisectBits p.2 (-180) 180 23
  let latBits := bisectBits p.1 (-90) 90 22
  String.mk ((chunk5 (interleave lonBits latBits)).map charOfBits)

/-- `Geohash.unhash(code)`: decodes a geohash back to the centre of its
cell, each coordinate rounded to 6 decimal places; `none` models the
codec's input-validation error on a malformed code. -/
def unhash? (s : String) : Option Position :=
  match decodeBits s.data with
  | none => none
  | some bits =>
    let p := deinterleave bits
    some (round6 (decodeMid p.2 (-90) 90), round6 (decodeMid p.1 (-180) 180))

end Geohash

/-! ### Codec lemmas -/

theorem length_bisectBits (n : ℕ) :
    ∀ x lo hi : ℚ, (bisectBits x lo hi n).length = n := by
  induction n with
  | zero => intro x lo hi; rfl
  | succ n ih =>
    intro x lo hi
    simp only [bisectBits]
    by_cases h : (lo + hi) / 2 ≤ x
    · simp [h, ih]
    · simp [h, ih]

theorem length_interleave (a : List Bool) :
    ∀ b, (interleave a b).length = a.length + b.length := by
  induction a with
  | nil =>
    intro b
    simp [interleave]
  | cons x xs ih =>
    intro b
    cases b with
    | nil => simp [interleave]
    | cons y ys =>
      simp only [interleave, List.length_cons, ih ys]
      omega

theorem deinterleave_interleave (a : List Bool) :
    ∀ b, b.length ≤ a.length → a.length ≤ b.length + 1 →
      deinterleave (interleave a b) = (a, b) := by
  induction a with
  | nil =>
    intro b h1 h2
    have hb : b = [] := List.eq_nil_of_length_eq_zero (Nat.le_zero.mp h1)
    subst hb
    simp [interleave, deinterleave]
  | cons x xs ih =>
    intro b h1 h2
    cases b with
    | nil =>
      have hxs : xs = [] := by
        cases xs with
        | nil => rfl
        | cons _ _ => simp at h2
      subst hxs
      simp [interleave, deinterleave]
    | cons y ys =>
      have h1' : ys.length ≤ xs.length := by simp at h1; omega
      have h2' : xs.length ≤ ys.length + 1 := by simp at h2; omega
      simp [interleave, deinterleave, ih ys h1' h2']

theorem bitsOfChar_charOfBits5 :
    ∀ b0 b1 b2 b3 b4 : Bool,
      bitsOfChar (charOfBits [b0, b1, b2, b3, b4]) = some [b0, b1, b2, b3, b4] := by
  decide

theorem decodeBits_chunk5 :
    ∀ n (l : List Bool), l.length = n → 5 ∣ n →
      decodeBits ((chunk5 l).map charOfBits) = some l := by
  intro n
  induction n using Nat.strong_induction_on with
  | _ n ih =>
    intro l hlen hdvd
    match l with
    | [] => rfl
    | [b0] => simp at hlen; omega
    | [b0, b1] => simp at hlen; omega
    | [b0, b1, b2] => simp at hlen; omega
    | [b0, b1, b2, b3] => simp at hlen; omega
    | b0 :: b1 :: b2 :: b3 :: b4 :: rest =>
      have hn : n = rest.length + 5 := by simp at hlen; omega
      have hdvd' : 5 ∣ rest.length := by omega
      have hrec := ih rest.length (by omega) rest rfl hdvd'
      simp only [chunk5, List.map, decodeBits, bitsOfChar_charOfBits5, hrec]
      rfl

theorem bisect_interval (n : ℕ) :
    ∀ x lo hi : ℚ, lo ≤ x → x ≤ hi →
      (intervalFold (bisectBits x lo hi n) lo hi).1 ≤ x ∧
      x ≤ (intervalFold (bisectBits x lo hi n) lo hi).2 ∧
      ((intervalFold (bisectBits x lo hi n) lo hi).2 -
        (intervalFold (bisectBits x lo hi n) lo hi).1) * 2 ^ n = hi - lo := by
  induction n with
  | zero =>
    intro x lo hi h1 h2
    exact ⟨h1, h2, by simp [bisectBits, intervalFold]⟩
  | succ n ih =>
    intro x lo hi h1 h2
    simp only [bisectBits]
    by_cases h : (lo + hi) / 2 ≤ x
    · simp only [if_pos h, intervalFold, if_pos]
      obtain ⟨ha, hb, hc⟩ := ih x ((lo + hi) / 2) hi h h2
      exact ⟨ha, hb, by rw [pow_succ]; linear_combination 2 * hc⟩
    · simp only [if_neg h, intervalFold, if_neg, Bool.false_eq_true,
        not_false_iff]
      obtain ⟨ha, hb, hc⟩ := ih x lo ((lo + hi) / 2) h1 (le_of_not_le h)
      exact ⟨ha, hb, by rw [pow_succ]; linear_combination 2 * hc⟩

theorem abs_decodeMid_sub (x lo hi : ℚ) (n : ℕ) (h1 : lo ≤ x) (h2 : x ≤ hi) :
    |decodeMid (bisectBits x lo hi n) lo hi - x| * 2 ^ (n + 1) ≤ hi - lo := by
  obtain ⟨ha, hb, hc⟩ := bisect_interval n x lo hi h1 h2
  set l := (intervalFold (bisectBits x lo hi n) lo hi).1 with hl
  set h := (intervalFold (bisectBits x lo hi n) lo hi).2 with hh
  have habs : |decodeMid (bisectBits x lo hi n) lo hi - x| ≤ (h - l) / 2 := by
    rw [decodeMid, abs_le]
    constructor <;> simp only [← hl, ← hh] <;> [linarith; linarith]
  have hpow : (0 : ℚ) ≤ 2 ^ (n + 1) := by positivity
  calc |decodeMid (bisectBits x lo hi n) lo hi - x| * 2 ^ (n + 1)
      ≤ ((h - l) / 2) * 2 ^ (n + 1) := by
        exact mul_le_mul_of_nonneg_right habs hpow
    _ = (h - l) * 2 ^ n := by rw [pow_succ]; ring
    _ = hi - lo := hc

theorem abs_round6_sub (q : ℚ) : |round6 q - q| ≤ 1 / 2000000 := by
  have h := abs_sub_round ((10 ^ 6 : ℚ) * q)
  have heq : q - round6 q = ((10 ^ 6 : ℚ) * q - (round ((10 ^ 6 : ℚ) * q) : ℤ)) / 10 ^ 6 := by
    simp only [round6]; ring
  rw [abs_sub_comm, heq, abs_div]
  rw [show |(10 : ℚ) ^ 6| = 10 ^ 6 by norm_num]
  rw [div_le_iff₀ (by norm_num : (0 : ℚ) < 10 ^ 6)]
  calc |(10 ^ 6 : ℚ) * q - (round ((10 ^ 6 : ℚ) * q) : ℤ)| ≤ 1 / 2 := h
    _ = 1 / 2000000 * 10 ^ 6 := by norm_num

theorem round6_is_sixdp (q : ℚ) : ∃ a : ℤ, round6 q = (a : ℚ) / 10 ^ 6 :=
  ⟨round ((10 ^ 6 : ℚ) * q), rfl⟩

theorem unhash_hash (lat lon : ℚ) (h1 : -90 ≤ lat) (h2 : lat ≤ 90)
    (h3 : -180 ≤ lon) (h4 : lon ≤ 180) :
    Geohash.unhash? (Geohash.hash (lat, lon)) =
      some (round6 (decodeMid (bisectBits lat (-90) 90 22) (-90) 90),
            round6 (decodeMid (bisectBits lon (-180) 180 23) (-180) 180)) := by
  have hlon : (bisectBits lon (-180) 180 23).length = 23 := length_bisectBits 23 lon _ _
  have hlat : (bisectBits lat (-90) 90 22).length = 22 := length_bisectBits 22 lat _ _
  have hlen : (interleave (bisectBits lon (-180) 180 23) (bisectBits lat (-90) 90 22)).length = 45 := by
    rw [length_interleave, hlon, hlat]
  have hdec := decodeBits_chunk5 45 _ hlen (by norm_num)
  have hdeint := deinterleave_interleave (bisectBits lon (-180) 180 23)
    (bisectBits lat (-90) 90 22) (by rw [hlon, hlat]; norm_num)
    (by rw [hlon, hlat])
  simp only [Geohash.unhash?, Geohash.hash]
  rw [hdec]
  simp only [hdeint]

/-- C7: for every valid position `p`, decoding the 9-character geohash
encoding of `p` yields a position within the codec's precision bound
(at most `22 / 10 ^ 6` degrees ≈ 2.4 m on each coordinate, i.e. sub-meter
to few-meter order) of `p`, and each decoded coordinate is an integer
multiple of `10 ^ (-6)`, i.e. rounded to 6 decimal places; the round trip
is lossy, not bit-exact. -/
theorem C7_geohash_roundtrip (lat lon : ℚ) (h1 : -90 ≤ lat) (h2 : lat ≤ 90)
    (h3 : -180 ≤ lon) (h4 : lon ≤ 180) :
    ∃ lat' lon' : ℚ,
      Geohash.unhash? (Geohash.hash (lat, lon)) = some (lat', lon') ∧
      |lat' - lat| ≤ 22 / 10 ^ 6 ∧ |lon' - lon| ≤ 22 / 10 ^ 6 ∧
      (∃ a : ℤ, lat' = (a : ℚ) / 10 ^ 6) ∧ (∃ b : ℤ, lon' = (b : ℚ) / 10 ^ 6) := by
  refine ⟨_, _, unhash_hash lat lon h1 h2 h3 h4, ?_, ?_,
    round6_is_sixdp _, round6_is_sixdp _⟩
  · have hm := abs_decodeMid_sub lat (-90) 90 22 h1 h2
    have hr := abs_round6_sub (decodeMid (bisectBits lat (-90) 90 22) (-90) 90)
    have h5 : |decodeMid (bisectBits lat (-90) 90 22) (-90) 90 - lat| ≤ 180 / 2 ^ 23 := by
      rw [le_div_iff₀ (by positivity : (0 : ℚ) < 2 ^ 23)]
      calc |decodeMid (bisectBits lat (-90) 90 22) (-90) 90 - lat| * 2 ^ 23
          = |decodeMid (bisectBits lat (-90) 90 22) (-90) 90 - lat| * 2 ^ (22 + 1) := by norm_num
        _ ≤ 90 - (-90) := hm
        _ = 180 := by norm_num
    calc |round6 (decodeMid (bisectBits lat (-90) 90 22) (-90) 90) - lat|
        ≤ |round6 (decodeMid (bisectBits lat (-90) 90 22) (-90) 90) -
            decodeMid (bisectBits lat (-90) 90 22) (-90) 90| +
          |decodeMid (bisectBits lat (-90) 90 22) (-90) 90 - lat| := abs_sub_le _ _ _
      _ ≤ 1 / 2000000 + 180 / 2 ^ 23 := add_le_add hr h5
      _ ≤ 22 / 10 ^ 6 := by norm_num
  · have hm := abs_decodeMid_sub lon (-180) 180 23 h3 h4
    have hr := abs_round6_sub (decodeMid (bisectBits lon (-180) 180 23) (-180) 180)
    have h5 : |decodeMid (bisectBits lon (-180) 180 23) (-180) 180 - lon| ≤ 360 / 2 ^ 24 := by
      rw [le_div_iff₀ (by positivity : (0 : ℚ) < 2 ^ 24)]
      calc |decodeMid (bisectBits lon (-180) 180 23) (-180) 180 - lon| * 2 ^ 24
          = |decodeMid (bisectBits lon (-180) 180 23) (-180) 180 - lon| * 2 ^ (23 + 1) := by norm_num
        _ ≤ 180 - (-180) := hm
        _ = 360 := by norm_num
    calc |round6 (decodeMid (bisectBits lon (-180) 180 23) (-180) 180) - lon|
        ≤ |round6 (decodeMid (bisectBits lon (-180) 180 23) (-180) 180) -
            decodeMid (bisectBits lon (-180) 180 23) (-180) 180| +
          |decodeMid (bisectBits lon (-180) 180 23) (-180) 180 - lon| := abs_sub_le _ _ _
      _ ≤ 1 / 2000000 + 360 / 2 ^ 24 := add_le_add hr h5
      _ ≤ 22 / 10 ^ 6 := by norm_num

/-- Witness for C7 at the concrete position `(30, 120)`. -/
theorem C7_geohash_roundtrip_witness :
    ((-90 : ℚ) ≤ 30 ∧ (30 : ℚ) ≤ 90 ∧ (-180 : ℚ) ≤ 120 ∧ (120 : ℚ) ≤ 180) ∧
    (∃ lat' lon' : ℚ,
      Geohash.unhash? (Geohash.hash (30, 120)) = some (lat', lon') ∧
      |lat' - 30| ≤ 22 / 10 ^ 6 ∧ |lon' - 120| ≤ 22 / 10 ^ 6 ∧
      (∃ a : ℤ, lat' = (a : ℚ) / 10 ^ 6) ∧ (∃ b : ℤ, lon' = (b : ℚ) / 10 ^ 6)) :=
  ⟨⟨by norm_num, by norm_num, by norm_num, by norm_num⟩,
    C7_geohash_roundtrip 30 120 (by norm_num) (by norm_num) (by norm_num) (by norm_num)⟩

/-! ## The graph model (`dijkstar.Graph.add_edge` as used by the repo) -/

/-- `Graph.add_edge(u, v, edge)`: inserts or overwrites the single edge
stored for the ordered pair `(u, v)`. -/
def addEdge (u v : String) (e : Edge) (g : GraphData) : GraphData :=
  dinsert u (dinsert v e ((dget? u g).getD [])) g

/-- The edge stored for the ordered pair `(u, v)`, if any. -/
def edgeOf (g : GraphData) (u v : String) : Option Edge :=
  (dget? u g).bind (dget? v)

/-! ## The constrained cost function (`calculate_route.py`, `CostFunc`) -/

/-- The fields of a `CostFunc` object (set by `CostFunc.__init__`). -/
structure CostFunc : Type where
  dest : String
  dest_is_airport : Bool
  sid_node : Option String
  star_node : Option String
  deriving DecidableEq, Repr

/-- `CostFunc.__init__(orig, dest, sid_node, star_node)`: rejects a forced
SID exit node when `len(orig) != 4` and a forced STAR entry node when
`len(dest) != 4` (raising `MiscellaneousError`), otherwise stores
`dest`, `dest_is_airport = (len(dest) == 4)` and the two forced nodes. -/
def CostFunc.init (orig dest : String) (sid_node star_node : Option String) :
    Except Err CostFunc :=
  if orig.length ≠ 4 ∧ sid_node ≠ none then
    .error .miscellaneous
  else if dest.length ≠ 4 ∧ star_node ≠ none then
    .error .miscellaneous
  else
    .ok ⟨dest, dest.length = 4, sid_node, star_node⟩

/-- `CostFunc.__call__(prev_node, next_node, edge, _)`.  Returns the edge
cost; `none` models the Python return value `float("inf")`. -/
def CostFunc.call (cf : CostFunc) (prev_node next_node : String) (edge : Edge) :
    Option ℚ :=
  let distance := edge.1
  let edgename := edge.2
  if edgename = "SID" ∧ cf.sid_node ≠ none then
    if ¬ (some next_node = cf.sid_node) then none else some distance
  else if edgename = "STAR" then
    if ¬ cf.dest_is_airport then none
    else if next_node ≠ cf.dest then none
    else if cf.star_node ≠ none ∧ cf.star_node ≠ some prev_node then none
    else some distance
  else some distance

/-! ## The data compiler (`compile_data.py`, class `DataCompiler`)

Python attaches `graph`, `node_info`, `airport_info` and `_navaid_frequency`
to the `DataCompiler` *class* (lines 54–57): all instances alias the same
four mutable objects, which a method mutates in place.  The boolean flags
`_navaids_read`/`_edge_read`/`_airport_read` are *assigned* (not mutated)
on `self`, which creates per-instance attributes.  The embedding therefore
splits the state into `CompilerShared` (one value threaded through every
instance's calls) and `CompilerInst` (one value per instance).

File input is modelled at the parsed-row level: the `csv` parsing, `tqdm`
progress bars, directory walking and the `.txt`-suffix filter are I/O
framing with no algorithmic content. -/

/-- The class-level mutable objects shared by every `DataCompiler`
instance. -/
structure CompilerShared : Type where
  graph : GraphData
  node_info : List (String × HashedNodeInfo)
  airport_info : List (String × AirportInfo)
  navaid_frequency : List (String × ℚ)
  deriving DecidableEq, Repr

/-- The per-instance phase flags of a `DataCompiler`. -/
structure CompilerInst : Type where
  navaids_read : Bool
  edge_read : Bool
  airport_read : Bool
  deriving DecidableEq, Repr

/-- A freshly constructed `DataCompiler` (all flags at their class-level
default `False`). -/
def CompilerInst.fresh : CompilerInst := ⟨false, false, false⟩

/-- A parsed row of `Navaids.txt`: column 2 is the navaid frequency and
columns 6–7 its latitude/longitude. -/
structure NavaidRow : Type where
  frequency : ℚ
  lat : ℚ
  lng : ℚ
  deriving DecidableEq, Repr

/-- A parsed row of `ATS.txt`: an airway header (`row[0] == "A"`, airway
name in column 1), a segment (`row[0] == "S"`: start name and position in
columns 1–3, end name and position in columns 4–6, distance in column 9),
or any other row (blank rows and unknown markers are skipped). -/
inductive AtsRow : Type
  | airway (name : String)
  | segment (startName : String) (startLat startLng : ℚ)
      (endName : String) (endLat endLng : ℚ) (distance : ℚ)
  | other
  deriving DecidableEq, Repr

/-- A parsed node row of a SID/STAR block: type code, name,
latitude, longitude (columns 0–3). -/
structure ProcRow : Type where
  typeCode : String
  name : String
  lat : ℚ
  lng : ℚ
  deriving DecidableEq, Repr

/-- A parsed block of a per-airport procedure file: the airport header
(`A,<icao>,<name>,<lat>,<lng>`), a SID/STAR block (first line
`SID,<name>,<runway>,...` or `STAR,...`, then its node rows, which include
every CSV row of the block), or any other block (skipped). -/
inductive ApBlock : Type
  | header (icao : String) (lat lng : ℚ)
  | proc (isSid : Bool) (name runway : String) (rows : List ProcRow)
  | other
  deriving DecidableEq, Repr

/-- The string value of the `proc_type` literal. -/
def procTypeName (isSid : Bool) : String := if isSid then "SID" else "STAR"

namespace DataCompiler

/-- `DataCompiler.read_navaids`: fails with `AlreadyReadError` when
re-invoked, otherwise records `navaid_frequency[hash(lat, lng)] = freq`
for every row and marks the phase done. -/
def read_navaids (rows : List NavaidRow) (s : CompilerShared) (inst : CompilerInst) :
    Except Err (CompilerShared × CompilerInst) :=
  if inst.navaids_read then .error .alreadyRead
  else
    .ok ({ s with navaid_frequency :=
            (rows.foldl (fun m r => dinsert (Geohash.hash (r.lat, r.lng)) r.frequency m)
              s.navaid_frequency) },
         { inst with navaids_read := true })

/-- The row loop of `read_edge` (lines 158–200): threads the current
airway name, fails with `DataCorruptionError` on a segment row with no
preceding airway header, and otherwise adds the edge and both endpoint
records. -/
def readEdgeRows : List AtsRow → Option String → CompilerShared → Except Err CompilerShared
  | [], _, s => .ok s
  | .airway name :: rest, _, s => readEdgeRows rest (some name) s
  | .other :: rest, en, s => readEdgeRows rest en s
  | .segment sn slat slng en2 elat elng dist :: rest, en, s =>
    match en with
    | none => .error .dataCorruption
    | some edgename =>
      let sh := Geohash.hash (slat, slng)
      let sf := dget? sh s.navaid_frequency
      let eh := Geohash.hash (elat, elng)
      let ef := dget? eh s.navaid_frequency
      readEdgeRows rest (some edgename)
        { s with
          graph := addEdge sh eh (dist, edgename) s.graph,
          node_info := dinsert eh ⟨en2, ef⟩ (dinsert sh ⟨sn, sf⟩ s.node_info) }

/-- `DataCompiler.read_edge`: fails with `AlreadyReadError` when re-invoked
and with `ReadOrderError` when the navaid phase has not run, otherwise
processes the rows and marks the phase done. -/
def read_edge (rows : List AtsRow) (s : CompilerShared) (inst : CompilerInst) :
    Except Err (CompilerShared × CompilerInst) :=
  if inst.edge_read then .error .alreadyRead
  else if ¬ inst.navaids_read then .error .readOrder
  else
    match readEdgeRows rows none s with
    | .error e => .error e
    | .ok s' => .ok (s', { inst with edge_read := true })

/-- The fixed invalid leg-type set of `read_airport` (source keeps this
spelling). -/
def invaild_procedure_type : List String :=
  ["CA", "CD", "CI", "CR", "VA", "VD", "VI", "VM", "VR"]

/-- The node-row loop of a SID/STAR block (lines 260–280): rows whose type
code is `"SID"`, `"STAR"` or in the invalid set are skipped; each kept row
becomes a `NodeInfo` with a navaid frequency when its geohash is in the
phase-1 map. -/
def procNodes (navaid_frequency : List (String × ℚ)) (rows : List ProcRow) :
    List NodeInfo :=
  (rows.filter (fun r =>
      ¬(r.typeCode = "SID" ∨ r.typeCode = "STAR" ∨
        r.typeCode ∈ invaild_procedure_type))).map
    (fun r =>
      { name := r.name,
        frequency := dget? (Geohash.hash (r.lat, r.lng)) navaid_frequency,
        position := (r.lat, r.lng) })

/-- One SID/STAR block of `read_airport` (lines 252–347), after the airport
header is known.  `hav` is the external `haversine` great-circle distance
(nautical miles) used by `DataCompiler.get_distance`.  Returns the updated
`(ap_sid, ap_star, node_info, graph)`. -/
def processProc (hav : Position → Position → ℚ)
    (navaid_frequency : List (String × ℚ)) (ap_icao : String) (ap_position : Position)
    (isSid : Bool) (proc_name proc_runway : String) (rows : List ProcRow)
    (ap_sid ap_star : List (String × List AirportProcedure))
    (node_info : List (String × HashedNodeInfo)) (graph : GraphData) :
    List (String × List AirportProcedure) × List (String × List AirportProcedure) ×
      List (String × HashedNodeInfo) × GraphData :=
  match procNodes navaid_frequency rows with
  | [] => (ap_sid, ap_star, node_info, graph)
  | n0 :: ns =>
    let proc : AirportProcedure := ⟨proc_name, proc_runway, n0 :: ns⟩
    if isSid then
      let last_node := (n0 :: ns).getLast (List.cons_ne_nil n0 ns)
      let last_node_name := last_node.name
      let last_node_position := last_node.position
      if dget? last_node_name ap_sid = none then
        let last_node_hashed_position := Geohash.hash last_node_position
        let node_info' :=
          if dget? last_node_hashed_position node_info = none then
            dinsert last_node_hashed_position ⟨last_node_name, last_node.frequency⟩ node_info
          else node_info
        let ap_sid' := dinsert last_node_name [] ap_sid
        let graph' := addEdge ap_icao (Geohash.hash last_node_position)
          (hav ap_position last_node_position, procTypeName isSid) graph
        (dinsert last_node_name ((dget? last_node_name ap_sid').getD [] ++ [proc]) ap_sid',
         ap_star, node_info', graph')
      else
        (dinsert last_node_name ((dget? last_node_name ap_sid).getD [] ++ [proc]) ap_sid,
         ap_star, node_info, graph)
    else
      let first_node := n0
      let first_node_name := first_node.name
      let first_node_position := first_node.position
      if dget? first_node_name ap_star = none then
        let first_node_hashed_position := Geohash.hash first_node_position
        let node_info' :=
          if dget? first_node_hashed_position node_info = none then
            dinsert first_node_hashed_position ⟨first_node_name, first_node.frequency⟩ node_info
          else node_info
        let ap_star' := dinsert first_node_name [] ap_star
        let graph' := addEdge (Geohash.hash first_node_position) ap_icao
          (hav ap_position first_node_position, procTypeName isSid) graph
        (ap_sid,
         dinsert first_node_name ((dget? first_node_name ap_star').getD [] ++ [proc]) ap_star',
         node_info', graph')
      else
        (ap_sid,
         dinsert first_node_name ((dget? first_node_name ap_star).getD [] ++ [proc]) ap_star,
         node_info, graph)

/-- The block loop of one airport file (lines 243–349): an airport header
sets the ICAO and position, a SID/STAR block before any header fails with
`DataCorruptionError`, any other block is skipped. -/
def processBlocks (hav : Position → Position → ℚ) (navaid_frequency : List (String × ℚ)) :
    List ApBlock → Option String → Position →
    List (String × List AirportProcedure) → List (String × List AirportProcedure) →
    List (String × HashedNodeInfo) → GraphData →
    Except Err (Option String × Position ×
      List (String × List AirportProcedure) × List (String × List AirportProcedure) ×
      List (String × HashedNodeInfo) × GraphData)
  | [], icao, pos, sid, star, ni, g => .ok (icao, pos, sid, star, ni, g)
  | .header i la ln :: rest, _, _, sid, star, ni, g =>
    processBlocks hav navaid_frequency rest (some i) (la, ln) sid star ni g
  | .other :: rest, icao, pos, sid, star, ni, g =>
    processBlocks hav navaid_frequency rest icao pos sid star ni g
  | .proc isSid pn prw rows :: rest, icao, pos, sid, star, ni, g =>
    match icao with
    | none => .error .dataCorruption
    | some i =>
      let r := processProc hav navaid_frequency i pos isSid pn prw rows sid star ni g
      processBlocks hav navaid_frequency rest (some i) pos r.1 r.2.1 r.2.2.1 r.2.2.2

/-- One airport file (lines 228–359): after the blocks, if a header was
seen, register the airport position as a node and store the airport
record. -/
def processFile (hav : Position → Position → ℚ) (blocks : List ApBlock)
    (s : CompilerShared) : Except Err CompilerShared :=
  match processBlocks hav s.navaid_frequency blocks none (0, 0) [] [] s.node_info s.graph with
  | .error e => .error e
  | .ok (icao?, pos, sid, star, ni, g) =>
    match icao? with
    | none => .ok { s with node_info := ni, graph := g }
    | some icao =>
      .ok { s with
        node_info := dinsert (Geohash.hash pos) ⟨icao, none⟩ ni,
        graph := g,
        airport_info := dinsert icao ⟨pos, sid, star⟩ s.airport_info }

/-- The file loop of `read_airport`. -/
def readAirportFiles (hav : Position → Position → ℚ) :
    List (List ApBlock) → CompilerShared → Except Err CompilerShared
  | [], s => .ok s
  | f :: fs, s =>
    match processFile hav f s with
    | .error e => .error e
    | .ok s' => readAirportFiles hav fs s'

/-- `DataCompiler.read_airport`: fails with `AlreadyReadError` when
re-invoked (it performs no other prerequisite check), otherwise processes
every procedure file and marks the phase done. -/
def read_airport (hav : Position → Position → ℚ) (files : List (List ApBlock))
    (s : CompilerShared) (inst : CompilerInst) :
    Except Err (CompilerShared × CompilerInst) :=
  if inst.airport_read then .error .alreadyRead
  else
    match readAirportFiles hav files s with
    | .error e => .error e
    | .ok s' => .ok (s', { inst with airport_read := true })

/-- `DataCompiler.get_graph_data`: fails with `DataNotReadyError` unless
both the edge phase and the airport phase have completed. -/
def get_graph_data (s : CompilerShared) (inst : CompilerInst) : Except Err GraphData :=
  if ¬ inst.edge_read ∨ ¬ inst.airport_read then .error .dataNotReady
  else .ok s.graph

/-- `DataCompiler.get_info_data`: fails with `DataNotReadyError` unless
both the edge phase and the airport phase have completed. -/
def get_info_data (s : CompilerShared) (inst : CompilerInst) : Except Err InfoData :=
  if ¬ inst.edge_read ∨ ¬ inst.airport_read then .error .dataNotReady
  else .ok ⟨s.airport_info, s.node_info⟩

end DataCompiler

/-! ## The route calculator (`calculate_route.py`, class `RouteCalculater`)

`RouteCalculater` attaches one `dijkstar.Graph` object to the *class*
(line 119), so every instance aliases the same graph; `__init__` mutates
that shared object in place (`self.graph._data = graph_data`).  The
embedding passes the shared graph data explicitly.  The shortest-path
search itself is the external `dijkstar.find_path`. -/

/-- `dijkstar.algorithm.PathInfo` as used by `calculate`: the node
sequence, the corresponding edge objects (`edges[i]` joins `nodes[i]` to
`nodes[i+1]`), and the total cost (`none` models the float `inf`). -/
structure PathInfo : Type where
  nodes : List String
  edges : List Edge
  total_cost : Option ℚ
  deriving DecidableEq, Repr

/-- Addition of costs, where `none` models the float `inf`. -/
def costAdd : Option ℚ → Option ℚ → Option ℚ
  | some a, some b => some (a + b)
  | _, _ => none

/-- Total cost of a node sequence under the cost function: `none` if some
consecutive pair has no stored edge or some edge costs infinity. -/
def pathCost (g : GraphData) (cf : CostFunc) : List String → Option ℚ
  | [] => some 0
  | [_] => some 0
  | u :: v :: rest =>
    match edgeOf g u v with
    | none => none
    | some e => costAdd (cf.call u v e) (pathCost g cf (v :: rest))

/-- The stored edge objects along a node sequence (as `dijkstar` collects
them while annotating the found path). -/
def pathEdgeList (g : GraphData) : List String → List Edge
  | [] => []
  | [_] => []
  | u :: v :: rest => ((edgeOf g u v).getD (0, "")) :: pathEdgeList g (v :: rest)

/-- All one-step extensions of a reversed simple path (head is the current
endpoint) by a stored out-edge to a node not already on the path. -/
def extendOne (g : GraphData) (p : List String) : List (List String) :=
  match p with
  | [] => []
  | u :: _ => ((dget? u g).getD []).filterMap
      (fun x => if x.1 ∈ p then none else some (x.1 :: p))

/-- All reversed simple paths reachable from a frontier within `n` further
extension steps. -/
def pathsUpTo (g : GraphData) : Nat → List (List String) → List (List String)
  | 0, frontier => frontier
  | n + 1, frontier =>
    frontier ++ pathsUpTo g n (frontier.foldr (fun p acc => extendOne g p ++ acc) [])

/-- Modelled from the spec: the external `dijkstar.find_path` (its code is
not part of this repository).  Per spec §4.5 it is "a single-source
shortest-path search (Dijkstra or equivalent with non-negative weights)"
in which an infinite-cost edge "is excluded from the search as if absent":
the model returns a minimum-cost finite-cost simple path from `orig` to
`dest` (with its stored edges and total cost), or `none` when no
finite-cost path exists — in which case `calculate` raises its "no
result" error exactly as it does on `dijkstar`'s `NoPathError` or an
infinite total cost. -/
def find_path (g : GraphData) (orig dest : String) (cf : CostFunc) : Option PathInfo :=
  let cands := (pathsUpTo g g.length [[orig]]).filterMap
    (fun p =>
      if p.head? = some dest then
        match pathCost g cf p.reverse with
        | none => none
        | some c => some (p.reverse, c)
      else none)
  match cands with
  | [] => none
  | c :: rest =>
    let best := rest.foldl (fun acc x => if x.2 < acc.2 then x else acc) c
    some ⟨best.1, pathEdgeList g best.1, some best.2⟩

/-- A value stored in the raw (runtime) `info_data` dict passed to
`RouteCalculater.__init__`: Python's `dict` is heterogeneous, so a key may
hold either catalog. -/
inductive InfoSlot : Type
  | airports (m : List (String × AirportInfo))
  | nodes (m : List (String × HashedNodeInfo))
  deriving DecidableEq, Repr

/-- The raw `info_data` dict as seen at runtime. -/
abbrev PyInfoData : Type := List (String × InfoSlot)

/-- A `RouteCalculater` instance's own attribute (`self.info_data`);
`self.graph` is the class-level shared graph, passed separately. -/
structure RouteCalculaterInst : Type where
  info_data : PyInfoData
  deriving DecidableEq, Repr

namespace RouteCalculater

/-- `RouteCalculater.__init__(graph_data, info_data)`: fails with
`DataCorruptionError` unless `list(info_data.keys()) == ["airports",
"nodes"]`; otherwise overwrites the class-level shared graph's data with
`graph_data` (the previous shared value `shared_graph` is discarded) and
stores `info_data` on the instance. -/
def init (shared_graph : GraphData) (graph_data : GraphData) (info_data : PyInfoData) :
    Except Err (GraphData × RouteCalculaterInst) :=
  if ¬ (dkeys info_data = ["airports", "nodes"]) then .error .dataCorruption
  else .ok (graph_data, ⟨info_data⟩)

/-- The per-node resolution step of the post-processing loop in
`calculate` (lines 217–235): a 4-character node equal to the origin or the
destination resolves to the stored airport position with no frequency; the
literal `"STAR"` and `"SID"` markers pass through with position `(0, 0)`;
a 9-character node resolves through the node catalog (Python `KeyError`
when absent) and the geohash codec (its validation error on a malformed
code), and is renamed to its catalog name; anything else raises
`KeyError("Unexpected node:", ...)`. -/
def resolveNode (info : InfoData) (orig dest : String) (nodename : String) :
    Except Err (String × Position × Option ℚ) :=
  if nodename.length = 4 then
    if nodename = orig ∨ nodename = dest then
      match dget? nodename info.airports with
      | some ap => .ok (nodename, ap.position, none)
      | none => .error .keyError
    else if nodename = "STAR" then .ok (nodename, (0, 0), none)
    else .error .keyError
  else if nodename = "SID" then .ok (nodename, (0, 0), none)
  else if nodename.length = 9 then
    match dget? nodename info.nodes with
    | none => .error .keyError
    | some nd =>
      match Geohash.unhash? nodename with
      | none => .error .invalidGeohash
      | some pos => .ok (nd.name, pos, nd.frequency)
  else .error .keyError

/-- The post-processing loop of `calculate` (lines 208–248): walks the path
nodes with the outgoing edge label of each node (`path.edges[i]`, `none`
past the last edge, mirroring the caught `IndexError`); appends the
resolved display name when that label differs from `prev_edgename`,
follows it with the label itself when the label is not `none` (also
updating `prev_edgename`), and collects every resolved node whose display
name is not `"SID"`/`"STAR"` into the full node list. -/
def calcLoop (info : InfoData) (orig dest : String) :
    List String → List Edge → String → Except Err (List String × List NodeInfo)
  | [], _, _ => .ok ([], [])
  | nodename :: restNodes, es, prev_edgename =>
    let edgename : Option String :=
      match es with
      | [] => none
      | (_, en) :: _ => some en
    match resolveNode info orig dest nodename with
    | .error e => .error e
    | .ok (name, pos, freq) =>
      let changed : Bool :=
        match edgename with
        | none => true
        | some s => decide (s ≠ prev_edgename)
      let display_add : List String :=
        if changed then
          name :: (match edgename with | some s => [s] | none => [])
        else []
      let prev' : String :=
        if changed then
          match edgename with
          | some s => s
          | none => prev_edgename
        else prev_edgename
      let nodes_add : List NodeInfo :=
        if name ∉ ["SID", "STAR"] then [⟨name, freq, pos⟩] else []
      match calcLoop info orig dest restNodes (es.drop 1) prev' with
      | .error e => .error e
      | .ok (drest, nrest) => .ok (display_add ++ drest, nodes_add ++ nrest)

/-- `RouteCalculater.calculate(orig, dest)` (lines 178–255) over the typed
info data: fails with `NoResultError` when either code is missing from the
airport catalog or when the search yields no path (or an infinite-cost
one); otherwise post-processes the path and assembles the
`RouteResult`. -/
def calculate (g : GraphData) (info : InfoData) (orig dest : String) :
    Except Err RouteResult :=
  if dget? orig info.airports = none ∨ dget? dest info.airports = none then
    .error .noResult
  else
    match CostFunc.init orig dest none none with
    | .error e => .error e
    | .ok cf =>
      match find_path g orig dest cf with
      | none => .error .noResult
      | some path =>
        if path.total_cost = none then .error .noResult
        else
          match calcLoop info orig dest path.nodes path.edges "" with
          | .error e => .error e
          | .ok (display_route, full_nodes) =>
            match dget? orig info.airports, dget? dest info.airports with
            | some ao, some ad =>
              .ok ⟨display_route, path.total_cost, full_nodes, ao.sid, ad.star⟩
            | _, _ => .error .keyError

/-- `calculate` as invoked on an instance: reads the class-level shared
graph and the instance's raw `info_data` (whose keys passed the `__init__`
check; the two slots are assumed to hold the catalogs the static types
promise, as they do for compiler-produced data). -/
def calculate_self (shared_graph : GraphData) (inst : RouteCalculaterInst)
    (orig dest : String) : Except Err RouteResult :=
  match dget? "airports" inst.info_data, dget? "nodes" inst.info_data with
  | some (.airports am), some (.nodes nm) => calculate shared_graph ⟨am, nm⟩ orig dest
  | _, _ => .error .keyError

end RouteCalculater

/-! ## Claims C1 and C8: the constrained cost function -/

/-- C1: for every `CostFunc` and traversed edge `(distance, label)` between
`prev_node` and `next_node`: if the label is `"SID"` and a forced exit
waypoint is set, the cost is infinite (`none`) unless the next node equals
that waypoint; if the label is `"STAR"`, the cost is infinite unless the
destination is an airport AND the next node equals the destination AND,
when a forced entry waypoint is set, the node immediately preceding the
STAR edge equals it; otherwise the cost equals the edge's stored
distance. -/
theorem C1_costfunc_rules (cf : CostFunc) (prev_node next_node : String)
    (d : ℚ) (label : String) :
    (∀ w, label = "SID" → cf.sid_node = some w →
      cf.call prev_node next_node (d, label) =
        if next_node = w then some d else none) ∧
    (label = "STAR" →
      cf.call prev_node next_node (d, label) =
        if cf.dest_is_airport ∧ next_node = cf.dest ∧
            (cf.star_node = none ∨ cf.star_node = some prev_node)
        then some d else none) ∧
    ((label = "SID" → cf.sid_node = none) → label ≠ "STAR" →
      cf.call prev_node next_node (d, label) = some d) := by
  refine ⟨?_, ?_, ?_⟩
  · intro w hn hs
    subst hn
    simp only [CostFunc.call, hs]
    by_cases h : next_node = w
    · simp [h]
    · simp [h]
  · intro hn
    subst hn
    simp only [CostFunc.call]
    rw [if_neg (by simp)]
    rw [if_pos (by trivial)]
    by_cases hA : cf.dest_is_airport
    · by_cases hD : next_node = cf.dest
      · rcases hS : cf.star_node with _ | s
        · simp [hA, hD]
        · by_cases hP : s = prev_node
          · simp [hA, hD, hP]
          · simp [hA, hD, hP]
      · simp [hA, hD]
    · simp [hA]
  · intro hsid hstar
    simp only [CostFunc.call]
    by_cases hS : label = "SID"
    · rw [if_neg (by simp [hsid hS]), if_neg hstar]
    · rw [if_neg (by simp [hS]), if_neg hstar]

/-- Witness for C1: with a forced exit waypoint `"W"`, a SID edge to `"X"`
costs infinity while a SID edge to `"W"` costs its stored distance. -/
theorem C1_costfunc_rules_witness :
    CostFunc.call ⟨"ZSPD", true, some "W", none⟩ "P" "X" (5, "SID") = none ∧
    CostFunc.call ⟨"ZSPD", true, some "W", none⟩ "P" "W" (5, "SID") = some 5 := by
  constructor
  · have h := (C1_costfunc_rules ⟨"ZSPD", true, some "W", none⟩ "P" "X" 5 "SID").1
      "W" rfl rfl
    rw [h]
    decide
  · have h := (C1_costfunc_rules ⟨"ZSPD", true, some "W", none⟩ "P" "W" 5 "SID").1
      "W" rfl rfl
    rw [h]
    decide

/-- C8: constructing a `CostFunc` with a forced SID exit node while the
origin is not an airport (a 4-character code), or a forced STAR entry node
while the destination is not an airport, fails with the usage error
(`MiscellaneousError`, the spec's InvalidConfiguration); construction
succeeds whenever each forced node is only supplied with an airport at the
corresponding endpoint. -/
theorem C8_costfunc_init_guard (orig dest : String) (sid_node star_node : Option String) :
    (orig.length ≠ 4 → sid_node ≠ none →
      CostFunc.init orig dest sid_node star_node = .error .miscellaneous) ∧
    (dest.length ≠ 4 → star_node ≠ none →
      CostFunc.init orig dest sid_node star_node = .error .miscellaneous) ∧
    ((sid_node ≠ none → orig.length = 4) → (star_node ≠ none → dest.length = 4) →
      CostFunc.init orig dest sid_node star_node =
        .ok ⟨dest, dest.length = 4, sid_node, star_node⟩) := by
  refine ⟨?_, ?_, ?_⟩
  · intro h1 h2
    simp only [CostFunc.init]
    rw [if_pos ⟨h1, h2⟩]
  · intro h1 h2
    simp only [CostFunc.init]
    by_cases h : orig.length ≠ 4 ∧ sid_node ≠ none
    · rw [if_pos h]
    · rw [if_neg h, if_pos ⟨h1, h2⟩]
  · intro h1 h2
    simp only [CostFunc.init]
    rw [if_neg (by tauto), if_neg (by tauto)]

/-- Witness for C8: a 3-character origin with a forced SID node is
rejected; a pair of airports with both forced nodes is accepted. -/
theorem C8_costfunc_init_guard_witness :
    CostFunc.init "ABC" "ZSPD" (some "W") none = .error .miscellaneous ∧
    CostFunc.init "ZSFZ" "ZSPD" (some "W") (some "V") =
      .ok ⟨"ZSPD", ("ZSPD".length = 4 : Bool), some "W", some "V"⟩ := by
  constructor
  · exact (C8_costfunc_init_guard "ABC" "ZSPD" (some "W") none).1
      (by decide) (by decide)
  · exact (C8_costfunc_init_guard "ZSFZ" "ZSPD" (some "W") (some "V")).2.2
      (fun _ => by decide) (fun _ => by decide)

/-! ## Claim C2: the compiler phase machine -/

/-- C2 (amended): re-invoking a completed phase fails with
`AlreadyReadError`; invoking `read_edge` before `read_navaids` fails with
`ReadOrderError` (`read_airport` performs no such prerequisite check); and
`get_graph_data`/`get_info_data` fail with `DataNotReadyError` unless both
the edge phase and the airport phase have completed. -/
theorem C2_compiler_phase_machine (s : CompilerShared) (inst : CompilerInst)
    (nrows : List NavaidRow) (erows : List AtsRow)
    (hav : Position → Position → ℚ) (files : List (List ApBlock)) :
    (inst.navaids_read = true →
      DataCompiler.read_navaids nrows s inst = .error .alreadyRead) ∧
    (inst.edge_read = true →
      DataCompiler.read_edge erows s inst = .error .alreadyRead) ∧
    (inst.airport_read = true →
      DataCompiler.read_airport hav files s inst = .error .alreadyRead) ∧
    (inst.edge_read = false → inst.navaids_read = false →
      DataCompiler.read_edge erows s inst = .error .readOrder) ∧
    (inst.edge_read = false ∨ inst.airport_read = false →
      DataCompiler.get_graph_data s inst = .error .dataNotReady ∧
      DataCompiler.get_info_data s inst = .error .dataNotReady) := by
  refine ⟨?_, ?_, ?_, ?_, ?_⟩
  · intro h
    simp [DataCompiler.read_navaids, h]
  · intro h
    simp [DataCompiler.read_edge, h]
  · intro h
    simp [DataCompiler.read_airport, h]
  · intro h1 h2
    simp [DataCompiler.read_edge, h1, h2]
  · intro h
    rcases h with h | h
    · exact ⟨by simp [DataCompiler.get_graph_data, h],
             by simp [DataCompiler.get_info_data, h]⟩
    · exact ⟨by simp [DataCompiler.get_graph_data, h],
             by simp [DataCompiler.get_info_data, h]⟩

/-- Witness for C2: on a fresh compiler whose flags are set as stated,
each guard fires as the theorem says. -/
theorem C2_compiler_phase_machine_witness :
    DataCompiler.read_navaids [] ⟨[], [], [], []⟩ ⟨true, false, false⟩ =
      .error .alreadyRead ∧
    DataCompiler.read_edge [] ⟨[], [], [], []⟩ ⟨false, true, false⟩ =
      .error .alreadyRead ∧
    DataCompiler.read_airport (fun _ _ => 0) [] ⟨[], [], [], []⟩ ⟨true, true, true⟩ =
      .error .alreadyRead ∧
    DataCompiler.read_edge [] ⟨[], [], [], []⟩ ⟨false, false, false⟩ =
      .error .readOrder ∧
    DataCompiler.get_graph_data ⟨[], [], [], []⟩ ⟨false, true, false⟩ =
      .error .dataNotReady :=
  ⟨(C2_compiler_phase_machine ⟨[], [], [], []⟩ ⟨true, false, false⟩ [] []
      (fun _ _ => 0) []).1 rfl,
   (C2_compiler_phase_machine ⟨[], [], [], []⟩ ⟨false, true, false⟩ [] []
      (fun _ _ => 0) []).2.1 rfl,
   (C2_compiler_phase_machine ⟨[], [], [], []⟩ ⟨true, true, true⟩ [] []
      (fun _ _ => 0) []).2.2.1 rfl,
   (C2_compiler_phase_machine ⟨[], [], [], []⟩ ⟨false, false, false⟩ [] []
      (fun _ _ => 0) []).2.2.2.1 rfl rfl,
   ((C2_compiler_phase_machine ⟨[], [], [], []⟩ ⟨false, true, false⟩ [] []
      (fun _ _ => 0) []).2.2.2.2 (Or.inr rfl)).1⟩

/-- Counterexample to C2 as stated: `read_airport` checks only its own
`AlreadyRead` flag — invoked on a fresh compiler, before the edge phase
(and before the navaid phase), it succeeds instead of failing with a
`ReadOrderError`. -/
theorem C2_counterexample_airport_no_order_check :
    DataCompiler.read_airport (fun _ _ => 0) [] ⟨[], [], [], []⟩ CompilerInst.fresh =
      .ok (⟨[], [], [], []⟩, ⟨false, false, true⟩) := by
  rfl

/-! ## Claim C4: SID/STAR cataloging in the airport-read phase -/

/-- C4: a SID procedure whose node list is non-empty after filtering is
appended to the airport's SID catalog keyed by the name of its last
remaining node, all other keys and the STAR catalog are untouched, and a
graph edge from the airport's code to that node's geohash labeled `"SID"`
is added exactly when no SID group for that name existed yet (so multiple
procedures collapsing to the same exit point produce one graph edge while
all are retained in the catalog); symmetrically, a non-empty STAR
procedure is keyed by its first remaining node's name with a single edge
from that node's geohash to the airport labeled `"STAR"`. -/
theorem C4_sid_star_cataloging
    (hav : Position → Position → ℚ) (nf : List (String × ℚ))
    (icao : String) (appos : Position) (pname prw : String) (rows : List ProcRow)
    (sid star : List (String × List AirportProcedure))
    (ni : List (String × HashedNodeInfo)) (g : GraphData)
    (n0 : NodeInfo) (ns : List NodeInfo)
    (hpn : DataCompiler.procNodes nf rows = n0 :: ns) :
    (dget? ((n0 :: ns).getLast (List.cons_ne_nil n0 ns)).name
        (DataCompiler.processProc hav nf icao appos true pname prw rows sid star ni g).1 =
      some ((dget? ((n0 :: ns).getLast (List.cons_ne_nil n0 ns)).name sid).getD [] ++
        [⟨pname, prw, n0 :: ns⟩]) ∧
     (∀ k, k ≠ ((n0 :: ns).getLast (List.cons_ne_nil n0 ns)).name →
       dget? k (DataCompiler.processProc hav nf icao appos true pname prw rows sid star ni g).1 =
         dget? k sid) ∧
     (DataCompiler.processProc hav nf icao appos true pname prw rows sid star ni g).2.1 = star ∧
     (dget? ((n0 :: ns).getLast (List.cons_ne_nil n0 ns)).name sid = none →
       (DataCompiler.processProc hav nf icao appos true pname prw rows sid star ni g).2.2.2 =
         addEdge icao (Geohash.hash ((n0 :: ns).getLast (List.cons_ne_nil n0 ns)).position)
           (hav appos ((n0 :: ns).getLast (List.cons_ne_nil n0 ns)).position, "SID") g) ∧
     (dget? ((n0 :: ns).getLast (List.cons_ne_nil n0 ns)).name sid ≠ none →
       (DataCompiler.processProc hav nf icao appos true pname prw rows sid star ni g).2.2.2 = g)) ∧
    (dget? n0.name
        (DataCompiler.processProc hav nf icao appos false pname prw rows sid star ni g).2.1 =
      some ((dget? n0.name star).getD [] ++ [⟨pname, prw, n0 :: ns⟩]) ∧
     (∀ k, k ≠ n0.name →
       dget? k (DataCompiler.processProc hav nf icao appos false pname prw rows sid star ni g).2.1 =
         dget? k star) ∧
     (DataCompiler.processProc hav nf icao appos false pname prw rows sid star ni g).1 = sid ∧
     (dget? n0.name star = none →
       (DataCompiler.processProc hav nf icao appos false pname prw rows sid star ni g).2.2.2 =
         addEdge (Geohash.hash n0.position) icao (hav appos n0.position, "STAR") g) ∧
     (dget? n0.name star ≠ none →
       (DataCompiler.processProc hav nf icao appos false pname prw rows sid star ni g).2.2.2 = g)) := by
  constructor
  · by_cases hmem : dget? ((n0 :: ns).getLast (List.cons_ne_nil n0 ns)).name sid = none
    · refine ⟨?_, ?_, ?_, ?_, ?_⟩
      · simp [DataCompiler.processProc, hpn, hmem, dget?_dinsert]
      · intro k hk
        simp [DataCompiler.processProc, hpn, hmem,
          dget?_dinsert_ne _ _ _ _ (Ne.symm hk)]
      · simp [DataCompiler.processProc, hpn, hmem]
      · intro _
        simp [DataCompiler.processProc, hpn, hmem, procTypeName]
      · intro h
        exact absurd hmem h
    · refine ⟨?_, ?_, ?_, ?_, ?_⟩
      · simp [DataCompiler.processProc, hpn, hmem, dget?_dinsert]
      · intro k hk
        simp [DataCompiler.processProc, hpn, hmem,
          dget?_dinsert_ne _ _ _ _ (Ne.symm hk)]
      · simp [DataCompiler.processProc, hpn, hmem]
      · intro h
        exact absurd h hmem
      · intro _
        simp [DataCompiler.processProc, hpn, hmem]
  · by_cases hmem : dget? n0.name star = none
    · refine ⟨?_, ?_, ?_, ?_, ?_⟩
      · simp [DataCompiler.processProc, hpn, hmem, dget?_dinsert]
      · intro k hk
        simp [DataCompiler.processProc, hpn, hmem,
          dget?_dinsert_ne _ _ _ _ (Ne.symm hk)]
      · simp [DataCompiler.processProc, hpn, hmem]
      · intro _
        simp [DataCompiler.processProc, hpn, hmem, procTypeName]
      · intro h
        exact absurd hmem h
    · refine ⟨?_, ?_, ?_, ?_, ?_⟩
      · simp [DataCompiler.processProc, hpn, hmem, dget?_dinsert]
      · intro k hk
        simp [DataCompiler.processProc, hpn, hmem,
          dget?_dinsert_ne _ _ _ _ (Ne.symm hk)]
      · simp [DataCompiler.processProc, hpn, hmem]
      · intro h
        exact absurd h hmem
      · intro _
        simp [DataCompiler.processProc, hpn, hmem]

/-- Witness for C4: a concrete SID procedure with two kept nodes is filed
under its last node's name `"W2"` and produces the single `"SID"` edge
from the airport to that node's geohash. -/
theorem C4_sid_star_cataloging_witness :
    DataCompiler.procNodes [] [⟨"IF", "W1", 10, 20⟩, ⟨"TF", "W2", 11, 21⟩] =
      [⟨"W1", none, (10, 20)⟩, ⟨"W2", none, (11, 21)⟩] ∧
    dget? "W2" (DataCompiler.processProc (fun _ _ => 7) [] "ZSFZ" (0, 0) true "PROC1" "05"
        [⟨"IF", "W1", 10, 20⟩, ⟨"TF", "W2", 11, 21⟩] [] [] [] []).1 =
      some [⟨"PROC1", "05", [⟨"W1", none, (10, 20)⟩, ⟨"W2", none, (11, 21)⟩]⟩] ∧
    (DataCompiler.processProc (fun _ _ => 7) [] "ZSFZ" (0, 0) true "PROC1" "05"
        [⟨"IF", "W1", 10, 20⟩, ⟨"TF", "W2", 11, 21⟩] [] [] [] []).2.2.2 =
      addEdge "ZSFZ" (Geohash.hash (11, 21)) (7, "SID") [] := by
  have hpn : DataCompiler.procNodes []
      [⟨"IF", "W1", 10, 20⟩, ⟨"TF", "W2", 11, 21⟩] =
      ⟨"W1", none, ((10 : ℚ), (20 : ℚ))⟩ :: [⟨"W2", none, (11, 21)⟩] := by
    rfl
  have h := C4_sid_star_cataloging (fun _ _ => 7) [] "ZSFZ" (0, 0) "PROC1" "05"
    [⟨"IF", "W1", 10, 20⟩, ⟨"TF", "W2", 11, 21⟩] [] [] [] []
    ⟨"W1", none, (10, 20)⟩ [⟨"W2", none, (11, 21)⟩] hpn
  refine ⟨hpn, ?_, ?_⟩
  · have h1 := h.1.1
    simpa using h1
  · have h4 := h.1.2.2.2.1 rfl
    simpa using h4

/-! ## Claim C10: the `__init__` key check -/

/-- C10: constructing `RouteCalculater(graph_data, info_data)` fails with
`DataCorruptionError` exactly when the keys of `info_data`, in iteration
order, are not `["airports", "nodes"]`; with exactly those keys in that
order it succeeds (before any route can be computed, the failure happens
in `__init__`). -/
theorem C10_init_key_check (sg gd : GraphData) (info : PyInfoData) :
    (dkeys info = ["airports", "nodes"] →
      RouteCalculater.init sg gd info = .ok (gd, ⟨info⟩)) ∧
    (dkeys info ≠ ["airports", "nodes"] →
      RouteCalculater.init sg gd info = .error .dataCorruption) := by
  constructor
  · intro h
    simp [RouteCalculater.init, h]
  · intro h
    simp [RouteCalculater.init, h]

/-- Witness for C10: the right keys in the right order are accepted; the
same keys in the opposite order are rejected. -/
theorem C10_init_key_check_witness :
    RouteCalculater.init [] [] [("airports", .airports []), ("nodes", .nodes [])] =
      .ok ([], ⟨[("airports", .airports []), ("nodes", .nodes [])]⟩) ∧
    RouteCalculater.init [] [] [("nodes", .nodes []), ("airports", .airports [])] =
      .error .dataCorruption :=
  ⟨(C10_init_key_check [] [] [("airports", .airports []), ("nodes", .nodes [])]).1
      (by decide),
   (C10_init_key_check [] [] [("nodes", .nodes []), ("airports", .airports [])]).2
      (by decide)⟩

/-! ## Claim C9: class-level shared mutable state -/

theorem edgeOf_addEdge (g : GraphData) (u v : String) (e : Edge) :
    edgeOf (addEdge u v e g) u v = some e := by
  simp [edgeOf, addEdge, dget?_dinsert]

/-- C9: `DataCompiler` and `RouteCalculater` keep their graph (and the
compiler its node/airport catalogs) in class-level storage shared by all
instances: an edge read through one compiler instance is observable
through `get_graph_data`/`get_info_data` of a second, independent
instance; and constructing a second `RouteCalculater` overwrites the
single shared graph with its `graph_data`, so the first instance
subsequently computes routes against the second instance's graph. -/
theorem C9_shared_class_state
    (s : CompilerShared) (inst1 inst2 : CompilerInst)
    (h1e : inst1.edge_read = false) (h1n : inst1.navaids_read = true)
    (h2e : inst2.edge_read = true) (h2a : inst2.airport_read = true)
    (nm sn : String) (sla sln : ℚ) (en2 : String) (ela eln d : ℚ)
    (s' : CompilerShared) (inst1' : CompilerInst)
    (hread : DataCompiler.read_edge [.airway nm, .segment sn sla sln en2 ela eln d]
      s inst1 = .ok (s', inst1'))
    (sg g1 g2 : GraphData) (info1 info2 : PyInfoData)
    (hk1 : dkeys info1 = ["airports", "nodes"])
    (hk2 : dkeys info2 = ["airports", "nodes"]) :
    (DataCompiler.get_graph_data s' inst2 = .ok s'.graph ∧
     edgeOf s'.graph (Geohash.hash (sla, sln)) (Geohash.hash (ela, eln)) =
       some (d, nm) ∧
     DataCompiler.get_info_data s' inst2 = .ok ⟨s'.airport_info, s'.node_info⟩ ∧
     dget? (Geohash.hash (ela, eln)) s'.node_info =
       some ⟨en2, dget? (Geohash.hash (ela, eln)) s.navaid_frequency⟩) ∧
    (RouteCalculater.init sg g1 info1 = .ok (g1, ⟨info1⟩) ∧
     RouteCalculater.init g1 g2 info2 = .ok (g2, ⟨info2⟩) ∧
     ∀ am nm2 orig dest,
       dget? "airports" info1 = some (.airports am) →
       dget? "nodes" info1 = some (.nodes nm2) →
       RouteCalculater.calculate_self g2 ⟨info1⟩ orig dest =
         RouteCalculater.calculate g2 ⟨am, nm2⟩ orig dest) := by
  simp only [DataCompiler.read_edge, h1e, h1n, DataCompiler.readEdgeRows,
    Bool.false_eq_true, if_false, not_true, ite_false] at hread
  simp only [Except.ok.injEq, Prod.mk.injEq] at hread
  obtain ⟨hs', hinst'⟩ := hread
  constructor
  · refine ⟨?_, ?_, ?_, ?_⟩
    · simp [DataCompiler.get_graph_data, h2e, h2a]
    · rw [← hs']
      exact edgeOf_addEdge _ _ _ _
    · simp [DataCompiler.get_info_data, h2e, h2a]
    · rw [← hs']
      exact dget?_dinsert _ _ _
  · refine ⟨?_, ?_, ?_⟩
    · simp [RouteCalculater.init, hk1]
    · simp [RouteCalculater.init, hk2]
    · intro am nm2 orig dest ham hnm
      simp [RouteCalculater.calculate_self, ham, hnm]

/-- Witness for C9 at a concrete segment and concrete info dicts. -/
theorem C9_shared_class_state_witness :
    DataCompiler.read_edge [.airway "AW", .segment "S" 10 20 "E" 11 21 3]
      ⟨[], [], [], []⟩ ⟨true, false, false⟩ =
      .ok (⟨addEdge (Geohash.hash (10, 20)) (Geohash.hash (11, 21)) (3, "AW") [],
            dinsert (Geohash.hash (11, 21)) ⟨"E", none⟩
              (dinsert (Geohash.hash (10, 20)) ⟨"S", none⟩ []),
            [], []⟩,
           ⟨true, true, false⟩) ∧
    edgeOf (addEdge (Geohash.hash (10, 20)) (Geohash.hash (11, 21)) (3, "AW") [])
      (Geohash.hash (10, 20)) (Geohash.hash (11, 21)) = some (3, "AW") ∧
    RouteCalculater.init [] [("AAAA", [("BBBB", ((1 : ℚ), "L"))])]
      [("airports", .airports []), ("nodes", .nodes [])] =
      .ok ([("AAAA", [("BBBB", ((1 : ℚ), "L"))])],
           ⟨[("airports", .airports []), ("nodes", .nodes [])]⟩) := by
  have h := C9_shared_class_state ⟨[], [], [], []⟩ ⟨true, false, false⟩
    ⟨true, true, true⟩ rfl rfl rfl rfl "AW" "S" 10 20 "E" 11 21 3
    ⟨addEdge (Geohash.hash (10, 20)) (Geohash.hash (11, 21)) (3, "AW") [],
     dinsert (Geohash.hash (11, 21)) ⟨"E", none⟩
       (dinsert (Geohash.hash (10, 20)) ⟨"S", none⟩ []),
     [], []⟩
    ⟨true, true, false⟩ (by rfl) []
    [("AAAA", [("BBBB", ((1 : ℚ), "L"))])] []
    [("airports", .airports []), ("nodes", .nodes [])]
    [("airports", .airports []), ("nodes", .nodes [])] (by decide) (by decide)
  exact ⟨by rfl, h.1.2.1, h.2.1⟩

/-! ## Claim C5: path-node resolution kinds -/

/-- C5 (amended): during post-processing, a path node that is the *origin
or destination* airport code (present in the catalog) resolves to the
stored airport position with no frequency; a literal `"SID"` marker — or a
`"STAR"` marker distinct from the origin/destination codes — passes
through without error; a 9-character valid geohash present in the node
catalog resolves to its decoded position with name and frequency from the
catalog; and a node of none of these kinds — other than a 9-character
catalog entry that is not a valid geohash, which fails with the codec's
validation error — fails with the `KeyError` that the specification calls
InternalConsistency, and any resolution error aborts the loop with that
error.  (A known airport code that is neither the origin nor the
destination is *not* resolved: it falls in the error case.) -/
theorem C5_resolution_kinds (info : InfoData) (orig dest nodename : String) :
    (∀ ap, nodename.length = 4 → (nodename = orig ∨ nodename = dest) →
      dget? nodename info.airports = some ap →
      RouteCalculater.resolveNode info orig dest nodename =
        .ok (nodename, ap.position, none)) ∧
    ((nodename = "SID" ∨
        (nodename = "STAR" ∧ nodename ≠ orig ∧ nodename ≠ dest)) →
      RouteCalculater.resolveNode info orig dest nodename =
        .ok (nodename, (0, 0), none)) ∧
    (∀ nd p, nodename.length = 9 → dget? nodename info.nodes = some nd →
      Geohash.unhash? nodename = some p →
      RouteCalculater.resolveNode info orig dest nodename =
        .ok (nd.name, p, nd.frequency)) ∧
    (∀ nd, nodename.length = 9 → dget? nodename info.nodes = some nd →
      Geohash.unhash? nodename = none →
      RouteCalculater.resolveNode info orig dest nodename =
        .error .invalidGeohash) ∧
    (¬(nodename.length = 4 ∧ (nodename = orig ∨ nodename = dest) ∧
        dget? nodename info.airports ≠ none) →
     nodename ≠ "SID" → nodename ≠ "STAR" →
     ¬(nodename.length = 9 ∧ dget? nodename info.nodes ≠ none) →
      RouteCalculater.resolveNode info orig dest nodename = .error .keyError) ∧
    (∀ e, RouteCalculater.resolveNode info orig dest nodename = .error e →
      ∀ rest es prev,
        RouteCalculater.calcLoop info orig dest (nodename :: rest) es prev =
          .error e) := by
  refine ⟨?_, ?_, ?_, ?_, ?_, ?_⟩
  · intro ap h4 hod hap
    simp [RouteCalculater.resolveNode, h4, hod, hap]
  · intro h
    rcases h with h | ⟨h, ho, hd⟩
    · subst h
      simp only [RouteCalculater.resolveNode]
      rw [if_neg (by decide), if_pos (by trivial)]
    · subst h
      simp only [RouteCalculater.resolveNode]
      rw [if_pos (by decide), if_neg (by simp [ho, hd]), if_pos (by trivial)]
  · intro nd p h9 hnd hp
    simp only [RouteCalculater.resolveNode]
    rw [if_neg (by simp [h9]),
      if_neg (by intro h; rw [h] at h9; exact absurd h9 (by decide)),
      if_pos h9, hnd, hp]
  · intro nd h9 hnd hp
    simp only [RouteCalculater.resolveNode]
    rw [if_neg (by simp [h9]),
      if_neg (by intro h; rw [h] at h9; exact absurd h9 (by decide)),
      if_pos h9, hnd, hp]
  · intro hap hsid hstar hnode
    simp only [RouteCalculater.resolveNode]
    by_cases h4 : nodename.length = 4
    · rw [if_pos h4]
      by_cases hod : nodename = orig ∨ nodename = dest
      · rw [if_pos hod]
        have : dget? nodename info.airports = none := by
          by_contra hne
          exact hap ⟨h4, hod, hne⟩
        rw [this]
      · rw [if_neg hod, if_neg hstar]
    · rw [if_neg h4, if_neg hsid]
      by_cases h9 : nodename.length = 9
      · rw [if_pos h9]
        have : dget? nodename info.nodes = none := by
          by_contra hne
          exact hnode ⟨h9, hne⟩
        rw [this]
      · rw [if_neg h9]
  · intro e he rest es prev
    simp [RouteCalculater.calcLoop, he]

/-- Witness for C5 at concrete inputs of each kind: the origin airport, a
marker, a catalog waypoint (geohash of `(10, 20)`), a malformed
9-character catalog entry (`"aaaaaaaaa"`: `'a'` is outside the geohash
alphabet), and an unknown 4-character node. -/
theorem C5_resolution_kinds_witness :
    RouteCalculater.resolveNode
      ⟨[("AAAA", ⟨(0, 0), [], []⟩)], [(Geohash.hash (10, 20), ⟨"WPT1", some 113⟩)]⟩
      "AAAA" "ZZZZ" "AAAA" = .ok ("AAAA", (0, 0), none) ∧
    RouteCalculater.resolveNode
      ⟨[("AAAA", ⟨(0, 0), [], []⟩)], [(Geohash.hash (10, 20), ⟨"WPT1", some 113⟩)]⟩
      "AAAA" "ZZZZ" "SID" = .ok ("SID", (0, 0), none) ∧
    RouteCalculater.resolveNode
      ⟨[("AAAA", ⟨(0, 0), [], []⟩)], [(Geohash.hash (10, 20), ⟨"WPT1", some 113⟩)]⟩
      "AAAA" "ZZZZ" (Geohash.hash (10, 20)) =
        .ok ("WPT1", (round6 (decodeMid (bisectBits 10 (-90) 90 22) (-90) 90),
          round6 (decodeMid (bisectBits 20 (-180) 180 23) (-180) 180)), some 113) ∧
    RouteCalculater.resolveNode
      ⟨[("AAAA", ⟨(0, 0), [], []⟩)], [("aaaaaaaaa", ⟨"WPTX", none⟩)]⟩
      "AAAA" "ZZZZ" "aaaaaaaaa" = .error .invalidGeohash ∧
    RouteCalculater.resolveNode
      ⟨[("AAAA", ⟨(0, 0), [], []⟩)], [(Geohash.hash (10, 20), ⟨"WPT1", some 113⟩)]⟩
      "AAAA" "ZZZZ" "QQQQ" = .error .keyError := by
  refine ⟨?_, ?_, ?_, ?_, ?_⟩
  · exact (C5_resolution_kinds _ "AAAA" "ZZZZ" "AAAA").1 ⟨(0, 0), [], []⟩
      (by decide) (Or.inl rfl) (by rfl)
  · exact (C5_resolution_kinds _ "AAAA" "ZZZZ" "SID").2.1 (Or.inl rfl)
  · exact (C5_resolution_kinds _ "AAAA" "ZZZZ" (Geohash.hash (10, 20))).2.2.1
      ⟨"WPT1", some 113⟩
      (round6 (decodeMid (bisectBits 10 (-90) 90 22) (-90) 90),
        round6 (decodeMid (bisectBits 20 (-180) 180 23) (-180) 180))
      (by decide) (by simp [dget?])
      (unhash_hash 10 20 (by norm_num) (by norm_num) (by norm_num) (by norm_num))
  · exact (C5_resolution_kinds _ "AAAA" "ZZZZ" "aaaaaaaaa").2.2.2.1
      ⟨"WPTX", none⟩ (by decide) (by simp [dget?]) (by decide)
  · exact (C5_resolution_kinds _ "AAAA" "ZZZZ" "QQQQ").2.2.2.2.1
      (by decide) (by decide) (by decide) (by decide)

/-- Counterexample to C5 as stated, in both of its refuted parts.
First: `"BBBB"` is a known airport code of the catalog and lies on the
computed path (the only finite-cost path from `"AAAA"` to `"ZZZZ"`), yet —
being neither the origin nor the destination — its resolution raises the
`KeyError` instead of succeeding, and the whole `calculate` call fails
with it.  Second: the 9-character catalog entry `"aaaaaaaaa"` (`'a'` is
outside the geohash alphabet, so it is not a geohash and falls in the
claim's "none of these kinds") fails with the codec's input-validation
error, not with the claimed InternalConsistency `KeyError`. -/
theorem C5_counterexample_midpath_airport :
    Geohash.unhash? "aaaaaaaaa" = none ∧
    RouteCalculater.resolveNode
      ⟨[("AAAA", ⟨(0, 0), [], []⟩), ("ZZZZ", ⟨(1, 1), [], []⟩)],
       [("aaaaaaaaa", ⟨"WPTX", none⟩)]⟩ "AAAA" "ZZZZ" "aaaaaaaaa" =
      .error .invalidGeohash ∧
    dget? "BBBB"
      (⟨[("AAAA", ⟨(0, 0), [], []⟩), ("BBBB", ⟨(5, 5), [], []⟩),
         ("ZZZZ", ⟨(1, 1), [], []⟩)], []⟩ : InfoData).airports =
      some ⟨(5, 5), [], []⟩ ∧
    (find_path (addEdge "BBBB" "ZZZZ" (1, "L") (addEdge "AAAA" "BBBB" (1, "L") []))
        "AAAA" "ZZZZ" ⟨"ZZZZ", true, none, none⟩).map PathInfo.nodes =
      some ["AAAA", "BBBB", "ZZZZ"] ∧
    RouteCalculater.resolveNode
      ⟨[("AAAA", ⟨(0, 0), [], []⟩), ("BBBB", ⟨(5, 5), [], []⟩),
        ("ZZZZ", ⟨(1, 1), [], []⟩)], []⟩ "AAAA" "ZZZZ" "BBBB" =
      .error .keyError ∧
    RouteCalculater.calculate
      (addEdge "BBBB" "ZZZZ" (1, "L") (addEdge "AAAA" "BBBB" (1, "L") []))
      ⟨[("AAAA", ⟨(0, 0), [], []⟩), ("BBBB", ⟨(5, 5), [], []⟩),
        ("ZZZZ", ⟨(1, 1), [], []⟩)], []⟩ "AAAA" "ZZZZ" = .error .keyError := by
  refine ⟨by decide, by decide, by rfl, by rfl, by rfl, by rfl⟩

/-! ## Claim C6: display-route label collapsing -/

/-- C6 (amended): in the display route, a node's display name is appended
exactly when the label of the edge *leaving* it (`path.edges[i]` for node
`i`; `none` past the last edge) differs from the previously emitted label;
when it differs and is an actual label, that label string is emitted
immediately after the node's name and becomes the previously emitted
label, so consecutive nodes along the same airway collapse into a single
label span; a node whose outgoing label equals the previously emitted
label contributes nothing to the display (but is still collected into the
node list). -/
theorem C6_display_label_collapsing (info : InfoData) (orig dest nodename : String)
    (restNodes : List String) (es : List Edge) (prev : String)
    (name : String) (pos : Position) (freq : Option ℚ)
    (hres : RouteCalculater.resolveNode info orig dest nodename = .ok (name, pos, freq)) :
    (∀ d lbl tl, es = (d, lbl) :: tl → lbl ≠ prev →
      RouteCalculater.calcLoop info orig dest (nodename :: restNodes) es prev =
        (RouteCalculater.calcLoop info orig dest restNodes tl lbl).map
          (fun r => (name :: lbl :: r.1,
            (if name ∉ ["SID", "STAR"] then [⟨name, freq, pos⟩] else []) ++ r.2))) ∧
    (∀ d lbl tl, es = (d, lbl) :: tl → lbl = prev →
      RouteCalculater.calcLoop info orig dest (nodename :: restNodes) es prev =
        (RouteCalculater.calcLoop info orig dest restNodes tl prev).map
          (fun r => (r.1,
            (if name ∉ ["SID", "STAR"] then [⟨name, freq, pos⟩] else []) ++ r.2))) ∧
    (es = [] →
      RouteCalculater.calcLoop info orig dest (nodename :: restNodes) es prev =
        (RouteCalculater.calcLoop info orig dest restNodes [] prev).map
          (fun r => (name :: r.1,
            (if name ∉ ["SID", "STAR"] then [⟨name, freq, pos⟩] else []) ++ r.2))) := by
  refine ⟨?_, ?_, ?_⟩
  · intro d lbl tl hes hlbl
    subst hes
    cases hrec : RouteCalculater.calcLoop info orig dest restNodes tl lbl with
    | error e => simp [RouteCalculater.calcLoop, hres, hlbl, hrec, Except.map]
    | ok r => simp [RouteCalculater.calcLoop, hres, hlbl, hrec, Except.map]
  · intro d lbl tl hes hlbl
    subst hes
    subst hlbl
    cases hrec : RouteCalculater.calcLoop info orig dest restNodes tl lbl with
    | error e => simp [RouteCalculater.calcLoop, hres, hrec, Except.map]
    | ok r => simp [RouteCalculater.calcLoop, hres, hrec, Except.map]
  · intro hes
    subst hes
    cases hrec : RouteCalculater.calcLoop info orig dest restNodes [] prev with
    | error e => simp [RouteCalculater.calcLoop, hres, hrec, Except.map]
    | ok r => simp [RouteCalculater.calcLoop, hres, hrec, Except.map]

/-- Witness for C6: a single origin node with an outgoing `"X"` edge emits
its name followed by the new label. -/
theorem C6_display_label_collapsing_witness :
    RouteCalculater.calcLoop ⟨[("AAAA", ⟨(0, 0), [], []⟩)], []⟩ "AAAA" "ZZZZ"
      ["AAAA"] [(1, "X")] "" = .ok (["AAAA", "X"], [⟨"AAAA", none, (0, 0)⟩]) := by
  have h := (C6_display_label_collapsing ⟨[("AAAA", ⟨(0, 0), [], []⟩)], []⟩
    "AAAA" "ZZZZ" "AAAA" [] [(1, "X")] "" "AAAA" (0, 0) none (by decide)).1
    1 "X" [] rfl (by decide)
  rw [h]
  decide

/-- The display rule exactly as the claim words it: a node's name is
appended only when the edge label used to *reach* it (`none` for the first
node) differs from the previously emitted label, the changed label being
emitted after the name.  Introduced solely to refute the claim by
comparison with the code's loop. -/
def displayByReachingLabel : List (String × Option String) → String → List String
  | [], _ => []
  | (name, reach) :: rest, prevEmitted =>
    if (match reach with | none => true | some s => decide (s ≠ prevEmitted)) then
      match reach with
      | some s => name :: s :: displayByReachingLabel rest s
      | none => name :: displayByReachingLabel rest prevEmitted
    else displayByReachingLabel rest prevEmitted

/-- Counterexample to C6 as stated: on the unique finite-cost path
`AAAA → WPT1 → ZZZZ` with edge labels `X`, `Y`, the code's display is
`[AAAA, X, WPT1, Y, ZZZZ]` — node `WPT1` is emitted although the label
used to reach it (`"X"`) *equals* the previously emitted label (`"X"`),
and the claim's reach-label rule (applied to the same nodes, with
reaching labels `none`, `X`, `Y`) produces the different display
`[AAAA, WPT1, X, ZZZZ, Y]`.  The code keys the collapsing on the label of
the edge leaving each node, not the one reaching it. -/
theorem C6_counterexample_reaching_label :
    (RouteCalculater.calculate
        (addEdge (Geohash.hash (10, 20)) "ZZZZ" (2, "Y")
          (addEdge "AAAA" (Geohash.hash (10, 20)) (1, "X") []))
        ⟨[("AAAA", ⟨(0, 0), [], []⟩), ("ZZZZ", ⟨(1, 1), [], []⟩)],
         [(Geohash.hash (10, 20), ⟨"WPT1", none⟩)]⟩
        "AAAA" "ZZZZ").map RouteResult.display_route =
      .ok ["AAAA", "X", "WPT1", "Y", "ZZZZ"] ∧
    (find_path
        (addEdge (Geohash.hash (10, 20)) "ZZZZ" (2, "Y")
          (addEdge "AAAA" (Geohash.hash (10, 20)) (1, "X") []))
        "AAAA" "ZZZZ" ⟨"ZZZZ", true, none, none⟩).map PathInfo.edges =
      some [(1, "X"), (2, "Y")] ∧
    displayByReachingLabel
      [("AAAA", none), ("WPT1", some "X"), ("ZZZZ", some "Y")] "" =
      ["AAAA", "WPT1", "X", "ZZZZ", "Y"] ∧
    (["AAAA", "X", "WPT1", "Y", "ZZZZ"] : List String) ≠
      ["AAAA", "WPT1", "X", "ZZZZ", "Y"] := by
  refine ⟨by decide, by decide, by decide, by decide⟩

/-! ## Claim C3: `calculate`'s error behaviour -/

theorem resolveNode_error_kinds (info : InfoData) (orig dest n : String) (e : Err)
    (h : RouteCalculater.resolveNode info orig dest n = .error e) :
    e = .keyError ∨ e = .invalidGeohash := by
  unfold RouteCalculater.resolveNode at h
  repeat' split at h
  all_goals simp_all

theorem calcLoop_error_kinds (info : InfoData) (orig dest : String) :
    ∀ (nodes : List String) (es : List Edge) (prev : String) (e : Err),
      RouteCalculater.calcLoop info orig dest nodes es prev = .error e →
      e = .keyError ∨ e = .invalidGeohash := by
  intro nodes
  induction nodes with
  | nil =>
    intro es prev e h
    simp [RouteCalculater.calcLoop] at h
  | cons n rest ih =>
    intro es prev e h
    simp only [RouteCalculater.calcLoop] at h
    cases hres : RouteCalculater.resolveNode info orig dest n with
    | error e' =>
      rw [hres] at h
      simp only [Except.error.injEq] at h
      subst h
      exact resolveNode_error_kinds info orig dest n e' hres
    | ok t =>
      obtain ⟨name, pos, freq⟩ := t
      rw [hres] at h
      simp only at h
      cases hrec : RouteCalculater.calcLoop info orig dest rest (es.drop 1)
          (if (match (match es with
                | [] => none
                | (_, en) :: _ => some en) with
              | none => true
              | some s => decide (s ≠ prev)) = true then
            match (match es with
              | [] => none
              | (_, en) :: _ => some en) with
            | some s => s
            | none => prev
          else prev) with
      | error e2 =>
        rw [hrec] at h
        simp only [Except.error.injEq] at h
        subst h
        exact ih _ _ _ hrec
      | ok r =>
        rw [hrec] at h
        simp at h

theorem find_path_total_cost_some (g : GraphData) (orig dest : String)
    (cf : CostFunc) (p : PathInfo) (h : find_path g orig dest cf = some p) :
    ∃ c : ℚ, p.total_cost = some c := by
  simp only [find_path] at h
  split at h
  · exact absurd h (by simp)
  · rw [Option.some.injEq] at h
    subst h
    exact ⟨_, rfl⟩

/-- C3 (amended): `calculate(orig, dest)` fails with `NoResultError` when
either code is absent from the airport catalog, and fails with
`NoResultError` when the constrained search finds no finite-cost path; when
the search does return a (finite-cost) path, `calculate` either returns a
`RouteResult` or fails while resolving an unresolvable path node — with
the `KeyError` the specification calls InternalConsistency, or with the
geohash codec's validation error. -/
theorem C3_calculate_noresult (g : GraphData) (info : InfoData) (orig dest : String) :
    (dget? orig info.airports = none ∨ dget? dest info.airports = none →
      RouteCalculater.calculate g info orig dest = .error .noResult) ∧
    (∀ cf, dget? orig info.airports ≠ none → dget? dest info.airports ≠ none →
      CostFunc.init orig dest none none = .ok cf →
      find_path g orig dest cf = none →
      RouteCalculater.calculate g info orig dest = .error .noResult) ∧
    (∀ cf p, dget? orig info.airports ≠ none → dget? dest info.airports ≠ none →
      CostFunc.init orig dest none none = .ok cf →
      find_path g orig dest cf = some p →
      ((∃ r, RouteCalculater.calculate g info orig dest = .ok r) ∨
       RouteCalculater.calculate g info orig dest = .error .keyError ∨
       RouteCalculater.calculate g info orig dest = .error .invalidGeohash)) := by
  refine ⟨?_, ?_, ?_⟩
  · intro h
    simp only [RouteCalculater.calculate]
    rw [if_pos h]
  · intro cf h1 h2 hcf hfp
    simp only [RouteCalculater.calculate, hcf, hfp]
    rw [if_neg (by tauto)]
  · intro cf p h1 h2 hcf hfp
    simp only [RouteCalculater.calculate, hcf, hfp]
    rw [if_neg (by tauto)]
    obtain ⟨c, hc⟩ := find_path_total_cost_some g orig dest cf p hfp
    rw [if_neg (by simp [hc])]
    cases hloop : RouteCalculater.calcLoop info orig dest p.nodes p.edges "" with
    | error e =>
      rcases calcLoop_error_kinds info orig dest _ _ _ _ hloop with he | he <;> subst he
      · exact Or.inr (Or.inl rfl)
      · exact Or.inr (Or.inr rfl)
    | ok r =>
      obtain ⟨dr, fn⟩ := r
      left
      cases hao : dget? orig info.airports with
      | none => exact absurd hao h1
      | some ao =>
        cases had : dget? dest info.airports with
        | none => exact absurd had h2
        | some ad => exact ⟨_, rfl⟩

/-- Witness for C3: an unknown origin (empty catalog) fails with
`NoResultError`; known airports over an empty graph (no path) also fail
with `NoResultError`. -/
theorem C3_calculate_noresult_witness :
    RouteCalculater.calculate [] ⟨[], []⟩ "AAAA" "ZZZZ" = .error .noResult ∧
    RouteCalculater.calculate []
      ⟨[("AAAA", ⟨(0, 0), [], []⟩), ("ZZZZ", ⟨(1, 1), [], []⟩)], []⟩
      "AAAA" "ZZZZ" = .error .noResult :=
  ⟨(C3_calculate_noresult [] ⟨[], []⟩ "AAAA" "ZZZZ").1 (Or.inl rfl),
   (C3_calculate_noresult []
      ⟨[("AAAA", ⟨(0, 0), [], []⟩), ("ZZZZ", ⟨(1, 1), [], []⟩)], []⟩
      "AAAA" "ZZZZ").2.1 ⟨"ZZZZ", true, none, none⟩
      (by decide) (by decide) (by rfl) (by rfl)⟩

/-- Counterexample to C3 as stated: both airports are known and the search
returns a finite-cost path (`AAAA → BAD55 → ZZZZ`), yet `calculate` does
not return a `RouteResult` — the path's middle node `"BAD55"` (5
characters, no known kind) makes post-processing fail with the `KeyError`
(InternalConsistency), so "in all other cases it returns a RouteResult"
is false. -/
theorem C3_counterexample_internal_error :
    dget? "AAAA"
      (⟨[("AAAA", ⟨(0, 0), [], []⟩), ("ZZZZ", ⟨(1, 1), [], []⟩)], []⟩ : InfoData).airports =
      some ⟨(0, 0), [], []⟩ ∧
    (find_path (addEdge "BAD55" "ZZZZ" (1, "L") (addEdge "AAAA" "BAD55" (1, "L") []))
        "AAAA" "ZZZZ" ⟨"ZZZZ", true, none, none⟩).map PathInfo.nodes =
      some ["AAAA", "BAD55", "ZZZZ"] ∧
    (find_path (addEdge "BAD55" "ZZZZ" (1, "L") (addEdge "AAAA" "BAD55" (1, "L") []))
        "AAAA" "ZZZZ" ⟨"ZZZZ", true, none, none⟩).map PathInfo.total_cost =
      some (some 2) ∧
    RouteCalculater.calculate
      (addEdge "BAD55" "ZZZZ" (1, "L") (addEdge "AAAA" "BAD55" (1, "L") []))
      ⟨[("AAAA", ⟨(0, 0), [], []⟩), ("ZZZZ", ⟨(1, 1), [], []⟩)], []⟩
      "AAAA" "ZZZZ" = .error .keyError := by
  refine ⟨by decide, by decide, by decide, by decide⟩

end Routefinder
